import Mathlib

/-!
Shallow embedding of the fractal global credits API client (api-rs).

The repository contains two historical revisions of the same client:
the top-level one (`src/lib.rs`, `src/oauth.rs`, `src/types.rs`, struct
`ClientV1`) and the `v1` module (`src/v1/*.rs`, struct `Client`).  Both
are embedded here, with names following the source.

Modelling conventions:
- wall-clock instants (`DateTime<UTC>`) are `Int` seconds; the current
  time is an explicit `now` argument;
- machine integers (`u64`, `u8`, `usize`) are `Nat`, signed scores are
  `Int`;
- the HTTP transport is a function from the attempt index to the outcome
  of that attempt, and each operation returns the number of transport
  invocations it performed alongside its result;
- external codecs (rustc_serialize JSON and base64) are opaque
  collaborators of the crate and are passed as function parameters;
- a Rust panic (an `unwrap` of an `Err`) is modelled by `Option.none`
  on the functions that can panic;
- the unbounded retry loop of `v1::Client::send_request` gets explicit
  fuel; exhausting the fuel (`none`) models non-termination.
-/

/-- `ScopeDTO` / `Scope` (src/oauth.rs lines 83-105): an authorization
grant, `User` carrying the id of the authenticated user. -/
inductive Scope where
  | Admin
  | User (id : Nat)
  | Public
  | Developer
deriving DecidableEq, Repr

/-- `TokenTypeDTO` (external `fractal_dto` crate): the only token type
the client ever handles is a bearer token. -/
inductive TokenType where
  | Bearer
deriving DecidableEq, Repr

/-- `ResponseDTO`: the generic message envelope of the API. -/
structure ResponseDTO where
  message : String
deriving DecidableEq, Repr

/-- `FromDTOError` of the old `fractal_dto` snapshot used by
`src/oauth.rs` and `src/types.rs`: a unit-like error value. -/
structure FromDTOError
deriving DecidableEq, Repr

/-- `FromDTOError` of the newer `fractal_dto` snapshot used by
`src/v1/oauth.rs`: carries a message (`FromDTOError::new(msg)`). -/
structure FromDTOErrorV1 where
  message : String
deriving DecidableEq, Repr

/-- `error::Error` (src/error.rs), as the union of the variants the two
revisions construct.  Opaque payloads (hyper, io, json decoder errors)
are dropped. -/
inductive Error where
  | HyperError
  | IOError
  | FromDTOError (e : FromDTOError)
  | JSONDecodeError
  | Forbidden (msg : String)
  | BadRequest (msg : String)
  | Client (msg : String)
  | ClientError (r : ResponseDTO)
  | NotFound (msg : String)
  | Server (msg : String)
  | Unauthorized
  | ServerError
  | InvalidTokenType
  | InvalidScope
  | InvalidSecret
  | RegistrationError
  | TransactionError
  | ConfirmConnectionError
deriving DecidableEq, Repr

/-- A transport-level (connection) failure of one send attempt. -/
inductive TransportErr where
  | connection
deriving DecidableEq, Repr

/-- An HTTP response: status code and the full body text. -/
structure HttpResponse where
  status : Nat
  body : String
deriving DecidableEq, Repr

/-! ## Scope parsing (src/oauth.rs, `impl FromStr for Scope`) -/

/-- Rust `str::rfind` match test: the pattern `"User:"` occurs in `cs`
at position `i`. -/
def containsUserAt (cs : List Char) (i : Nat) : Bool :=
  decide ((cs.drop i).take 5 = ['U', 's', 'e', 'r', ':'])

/-- Rust `s.rfind("User:")`: index of the last occurrence of `"User:"`,
if any. -/
def rfindUser (cs : List Char) : Option Nat :=
  ((List.range (cs.length + 1)).reverse).find? (fun i => containsUserAt cs i)

/-- The digit part of Rust `str::parse::<u64>()`: one or more ascii
digits, rejecting values outside `u64`. -/
def parseDigits (ds : List Char) : Option Nat :=
  if ds = [] then none
  else if ds.all (fun c => c.isDigit) then
    if ds.foldl (fun a c => a * 10 + (c.toNat - 48)) 0 < 2 ^ 64 then
      some (ds.foldl (fun a c => a * 10 + (c.toNat - 48)) 0)
    else none
  else none

/-- Rust `str::parse::<u64>()`: an optional leading `+`, then one or
more ascii digits, rejecting values outside `u64`. -/
def rustParseU64 (cs : List Char) : Option Nat :=
  parseDigits (if cs.head? = some '+' then cs.tail else cs)

/-- `Scope::from_str` (src/oauth.rs lines 113-129).  Note that on a
match of `rfind("User:")` the code parses `s[i..]`, the slice that still
starts with the `"User:"` prefix itself. -/
def Scope.fromStr (s : String) : Except Error Scope :=
  if s = "Admin" then Except.ok Scope.Admin
  else if s = "Public" then Except.ok Scope.Public
  else if s = "Developer" then Except.ok Scope.Developer
  else
    match rfindUser s.data with
    | some i =>
      match rustParseU64 (s.data.drop i) with
      | some id => Except.ok (Scope.User id)
      | none => Except.error Error.InvalidScope
    | none => Except.error Error.InvalidScope

/-! ## Access token, top-level revision (src/oauth.rs) -/

/-- `AccessTokenDTO` (external `fractal_dto` crate): the wire form of a
token; `scopes` is a string (comma separated for the old revision, JSON
for the v1 revision) and `expiration` is a lifetime in seconds. -/
structure AccessTokenDTO where
  app_id : String
  scopes : String
  access_token : String
  token_type : TokenType
  expiration : Int
deriving DecidableEq, Repr

/-- `oauth::AccessToken` (src/oauth.rs lines 16-23). -/
structure AccessToken where
  app_id : String
  scopes : List Scope
  access_token : String
  token_type : TokenType
  expiration : Int
deriving DecidableEq, Repr

/-- `AccessToken::from_data` (src/oauth.rs line 27). -/
def AccessToken.from_data (app_id : String) (scopes : List Scope)
    (access_token : String) (token_type : TokenType) (expiration : Int) :
    AccessToken :=
  ⟨app_id, scopes, access_token, token_type, expiration⟩

/-- `AccessToken::has_expired` (src/oauth.rs lines 59-61):
`self.expiration < UTC::now()`. -/
def AccessToken.has_expired (tok : AccessToken) (now : Int) : Bool :=
  decide (tok.expiration < now)

/-- Rust `str::split(',')` (always yields at least one piece), on char
lists. -/
def splitChar (c : Char) : List Char → List (List Char)
  | [] => [[]]
  | x :: xs =>
    if x = c then [] :: splitChar c xs
    else
      match splitChar c xs with
      | [] => [[x]]
      | h :: t => (x :: h) :: t

/-- `dto.scopes.split(',')` as a list of strings. -/
def splitComma (s : String) : List String :=
  (splitChar ',' s.data).map (fun cs => String.mk cs)

/-- The scope-collecting loop of `AccessToken::from_dto` (src/oauth.rs
lines 66-72): parse every piece, an unparseable piece aborts the whole
conversion. -/
def parseScopes : List String → Option (List Scope)
  | [] => some []
  | p :: ps =>
    match Scope.fromStr p with
    | Except.ok s => (parseScopes ps).map (fun rest => s :: rest)
    | Except.error _ => none

/-- `AccessToken::from_dto` (src/oauth.rs lines 64-80): split the scope
string on commas, parse each piece, reject an empty scope list, and
stamp the expiration as `now + dto.expiration` seconds. -/
def AccessToken.from_dto (now : Int) (dto : AccessTokenDTO) :
    Except FromDTOError AccessToken :=
  match parseScopes (splitComma dto.scopes) with
  | none => Except.error ⟨⟩
  | some scopes =>
    if scopes.length = 0 then Except.error ⟨⟩
    else
      Except.ok ⟨dto.app_id, scopes, dto.access_token, dto.token_type,
        now + dto.expiration⟩

/-! ## Access token, v1 revision (src/v1/oauth.rs) -/

/-- `v1::oauth::AccessToken` (src/v1/oauth.rs lines 28-34). -/
structure AccessTokenV1 where
  app_id : String
  scopes : List Scope
  access_token : String
  expiration : Int
deriving DecidableEq, Repr

/-- `v1::AccessToken::from_data` (src/v1/oauth.rs lines 37-49). -/
def AccessTokenV1.from_data (app_id : String) (scopes : List Scope)
    (access_token : String) (expiration : Int) : AccessTokenV1 :=
  ⟨app_id, scopes, access_token, expiration⟩

/-- `v1::AccessToken::has_expired` (src/v1/oauth.rs lines 72-74). -/
def AccessTokenV1.has_expired (tok : AccessTokenV1) (now : Int) : Bool :=
  decide (tok.expiration < now)

/-- `v1::AccessToken::from_dto` (src/v1/oauth.rs lines 77-95).  The
scope string is decoded as JSON through the external codec
`decodeScopes`; the source calls `.unwrap()` on that decode, so a decode
failure is a panic, modelled as `none`. -/
def AccessTokenV1.from_dto (now : Int)
    (decodeScopes : String → Option (List Scope)) (dto : AccessTokenDTO) :
    Option (Except FromDTOErrorV1 AccessTokenV1) :=
  if dto.token_type ≠ TokenType.Bearer then
    some (Except.error ⟨"the token type of the access token is not valid"⟩)
  else
    match decodeScopes dto.scopes with
    | none => none
    | some scopes =>
      if scopes.length = 0 then
        some (Except.error ⟨"there were no scopes in the access token"⟩)
      else
        some (Except.ok ⟨dto.app_id, scopes, dto.access_token,
          now + dto.expiration⟩)

/-- Modelled from the spec: `is_admin` is called on the v1 access token
(src/v1/friends.rs line 100) but its definition is not among the
sources; spec section 4.1: true iff the Admin scope is present. -/
def AccessTokenV1.is_admin (tok : AccessTokenV1) : Bool :=
  tok.scopes.any (fun s => decide (s = Scope.Admin))

/-- Modelled from the spec: `is_user` is called on the v1 access token
(src/v1/friends.rs line 100) but its definition is not among the
sources; spec section 4.1: true iff a `User(id)` scope matching exactly
`id` is present. -/
def AccessTokenV1.is_user (tok : AccessTokenV1) (id : Nat) : Bool :=
  tok.scopes.any (fun s => decide (s = Scope.User id))

/-- Modelled from the spec: `get_user_id` is called on the v1 access
token (src/v1/friends.rs line 25) but its definition is not among the
sources; spec section 4.1: returns the carried id of the first `User`
scope, or none. -/
def AccessTokenV1.get_user_id (tok : AccessTokenV1) : Option Nat :=
  tok.scopes.findSome? (fun s =>
    match s with
    | Scope.User id => some id
    | _ => none)

/-! ## User value type (src/types.rs) -/

/-- `UserDTO` (external `fractal_dto` crate), with the fields
`User::from_dto` reads.  External value types: wallet addresses and
addresses are strings, amounts are `Nat`, instants and dates are
`Int`. -/
structure UserDTO where
  id : Nat
  username : String
  displayname : String
  email : String
  email_confirmed : Bool
  first : Option String
  first_confirmed : Bool
  last : Option String
  last_confirmed : Bool
  device_count : Nat
  wallet_addresses : List String
  pending_balance : Nat
  checking_balance : Nat
  cold_balance : Nat
  bonds : List (Int × Nat)
  birthday : Option Int
  birthday_confirmed : Bool
  phone : Option String
  phone_confirmed : Bool
  image : Option String
  address : Option String
  address_confirmed : Bool
  sybil_score : Int
  trust_score : Int
  enabled : Bool
  registered : Int
  last_activity : Int
  banned : Option Int
deriving DecidableEq, Repr

/-- `types::User` (src/types.rs lines 141-186): confirmable attributes
are paired with their confirmation flag. -/
structure User where
  id : Nat
  username : String
  displayname : String
  email : String × Bool
  first : Option (String × Bool)
  last : Option (String × Bool)
  device_count : Nat
  wallet_addresses : List String
  pending_balance : Nat
  checking_balance : Nat
  cold_balance : Nat
  bonds : List (Int × Nat)
  birthday : Option (Int × Bool)
  phone : Option (String × Bool)
  image : Option String
  address : Option (String × Bool)
  sybil_score : Int
  trust_score : Int
  enabled : Bool
  registered : Int
  last_activity : Int
  banned : Option Int
deriving DecidableEq, Repr

/-- `User::from_dto` (src/types.rs lines 363-416): pure repackaging,
never fails. -/
def User.from_dto (dto : UserDTO) : Except FromDTOError User :=
  let first_opt :=
    match dto.first with
    | some first => some (first, dto.first_confirmed)
    | none => none
  let last_opt :=
    match dto.last with
    | some last => some (last, dto.last_confirmed)
    | none => none
  let birthday_opt :=
    match dto.birthday with
    | some birthday => some (birthday, dto.birthday_confirmed)
    | none => none
  let phone_opt :=
    match dto.phone with
    | some phone => some (phone, dto.phone_confirmed)
    | none => none
  let address_opt :=
    match dto.address with
    | some address => some (address, dto.address_confirmed)
    | none => none
  Except.ok
    { id := dto.id
      username := dto.username
      displayname := dto.displayname
      email := (dto.email, dto.email_confirmed)
      first := first_opt
      last := last_opt
      device_count := dto.device_count
      wallet_addresses := dto.wallet_addresses
      pending_balance := dto.pending_balance
      checking_balance := dto.checking_balance
      cold_balance := dto.cold_balance
      bonds := dto.bonds
      birthday := birthday_opt
      phone := phone_opt
      image := dto.image
      address := address_opt
      sybil_score := dto.sybil_score
      trust_score := dto.trust_score
      enabled := dto.enabled
      registered := dto.registered
      last_activity := dto.last_activity
      banned := dto.banned }

/-! ## Request envelope, top-level revision (src/lib.rs) -/

/-- `SECRET_LEN` (src/lib.rs line 49). -/
def SECRET_LEN : Nat := 20

/-- `ClientV1::send_request` (src/lib.rs lines 97-121): send the request
once; if that transport call fails, send it once more with identical
data and return the second outcome.  The pair's second component counts
the transport invocations. -/
def ClientV1.send_request
    (transport : Nat → Except TransportErr HttpResponse) :
    Except TransportErr HttpResponse × Nat :=
  match transport 0 with
  | Except.error _ => (transport 1, 2)
  | Except.ok r => (Except.ok r, 1)

/-- `ClientV1::token` (src/lib.rs lines 124-157).  `b64` is the external
base64 codec (`rustc_serialize::base64::FromBase64`), `decodeToken` the
external JSON codec for `AccessTokenDTO`. -/
def ClientV1.token (b64 : String → Option (List Nat))
    (transport : Nat → Except TransportErr HttpResponse)
    (decodeToken : String → Option AccessTokenDTO)
    (now : Int) (_app_id secret : String) :
    Except Error AccessToken × Nat :=
  match b64 secret with
  | some b =>
    if b.length = SECRET_LEN then
      match ClientV1.send_request transport with
      | (Except.error _, n) => (Except.error Error.HyperError, n)
      | (Except.ok r, n) =>
        match r.status with
        | 200 =>
          match decodeToken r.body with
          | some dto =>
            match AccessToken.from_dto now dto with
            | Except.ok tok => (Except.ok tok, n)
            | Except.error e => (Except.error (Error.FromDTOError e), n)
          | none => (Except.error Error.JSONDecodeError, n)
        | 401 => (Except.error Error.Unauthorized, n)
        | _ => (Except.error Error.ServerError, n)
    else (Except.error Error.InvalidSecret, 0)
  | none => (Except.error Error.InvalidSecret, 0)

/-- `ClientV1::get_user` (src/lib.rs lines 301-334): guarded by a
matching `User` scope or the `Admin` scope and non-expiry; on 200 the
body is decoded as a `UserDTO` and converted. -/
def ClientV1.get_user (tok : AccessToken) (user_id : Nat) (now : Int)
    (transport : Nat → Except TransportErr HttpResponse)
    (decodeUser : String → Option UserDTO)
    (decodeResp : String → Option ResponseDTO) :
    Except Error User × Nat :=
  if (tok.scopes.any (fun s =>
        match s with
        | Scope.User u_id => decide (u_id = user_id)
        | Scope.Admin => true
        | _ => false)) && !(tok.has_expired now) then
    match ClientV1.send_request transport with
    | (Except.error _, n) => (Except.error Error.HyperError, n)
    | (Except.ok r, n) =>
      match r.status with
      | 200 =>
        match decodeUser r.body with
        | some udto =>
          match User.from_dto udto with
          | Except.ok u => (Except.ok u, n)
          | Except.error e => (Except.error (Error.FromDTOError e), n)
        | none => (Except.error Error.JSONDecodeError, n)
      | 202 =>
        match decodeResp r.body with
        | some rd => (Except.error (Error.ClientError rd), n)
        | none => (Except.error Error.JSONDecodeError, n)
      | 401 => (Except.error Error.Unauthorized, n)
      | _ => (Except.error Error.ServerError, n)
  else (Except.error Error.Unauthorized, 0)

/-- `ClientV1::get_all_users` (src/lib.rs lines 502-535): on 200 the
body is decoded as a `Vec<UserDTO>` and the elements are converted with
`filter_map`, dropping any element whose conversion fails. -/
def ClientV1.get_all_users (tok : AccessToken) (now : Int)
    (transport : Nat → Except TransportErr HttpResponse)
    (decodeUsers : String → Option (List UserDTO))
    (decodeResp : String → Option ResponseDTO) :
    Except Error (List User) × Nat :=
  if (tok.scopes.any (fun s => decide (s = Scope.Admin)))
      && !(tok.has_expired now) then
    match ClientV1.send_request transport with
    | (Except.error _, n) => (Except.error Error.HyperError, n)
    | (Except.ok r, n) =>
      match r.status with
      | 200 =>
        match decodeUsers r.body with
        | some dtos =>
          (Except.ok (dtos.filterMap (fun u =>
            match User.from_dto u with
            | Except.ok u => some u
            | Except.error _ => none)), n)
        | none => (Except.error Error.JSONDecodeError, n)
      | 401 => (Except.error Error.Unauthorized, n)
      | 202 =>
        match decodeResp r.body with
        | some rd => (Except.error (Error.ClientError rd), n)
        | none => (Except.error Error.JSONDecodeError, n)
      | _ => (Except.error Error.ServerError, n)
  else (Except.error Error.Unauthorized, 0)

/-- The origin-id computation of the top-level revision: the fold over
the scopes that keeps overwriting the accumulator with each `User` id it
meets (src/lib.rs lines 551-554 in `generate_transaction`, lines 989-992
in `invite_user_to_connect`, lines 952-956 in `set_password`; the
`for`-loop of `get_me`, lines 344-350, computes the same value). -/
def ClientV1.origin_id (tok : AccessToken) : Nat :=
  tok.scopes.foldl (fun acc s =>
    match s with
    | Scope.User id => id
    | _ => acc) 0

/-! ## Request envelope, v1 revision (src/v1/mod.rs) -/

/-- The retry loop of `v1::Client::send_request` (src/v1/mod.rs lines
65-78): after a first transport failure the request is re-sent over and
over until a send succeeds.  `fuel` bounds the modelled attempts; `none`
means the fuel ran out, i.e. the loop did not terminate within it.
Returns the response and the total number of transport invocations. -/
def Client.retryLoop (transport : Nat → Except TransportErr HttpResponse) :
    Nat → Nat → Option (HttpResponse × Nat)
  | 0, _ => none
  | fuel + 1, i =>
    match transport i with
    | Except.error _ => Client.retryLoop transport fuel (i + 1)
    | Except.ok r => some (r, i + 1)

/-- The transport phase of `v1::Client::send_request` (src/v1/mod.rs
lines 57-81): one initial attempt, then the unbounded retry loop if it
failed. -/
def Client.transportPhase
    (transport : Nat → Except TransportErr HttpResponse) (fuel : Nat) :
    Option (HttpResponse × Nat) :=
  match transport 0 with
  | Except.ok r => some (r, 1)
  | Except.error _ => Client.retryLoop transport fuel 1

/-- The status-code classification of `v1::Client::send_request`
(src/v1/mod.rs lines 83-112): 200 hands the response back; any other
status reads the full body, decodes it as a `ResponseDTO` and wraps its
`message` in the error variant selected by the status code. -/
def Client.classify (decode : String → Option ResponseDTO)
    (r : HttpResponse) : Except Error HttpResponse :=
  if r.status = 200 then Except.ok r
  else
    match r.status with
    | 403 =>
      match decode r.body with
      | some d => Except.error (Error.Forbidden d.message)
      | none => Except.error Error.JSONDecodeError
    | 202 =>
      match decode r.body with
      | some d => Except.error (Error.Client d.message)
      | none => Except.error Error.JSONDecodeError
    | 400 =>
      match decode r.body with
      | some d => Except.error (Error.BadRequest d.message)
      | none => Except.error Error.JSONDecodeError
    | 404 =>
      match decode r.body with
      | some d => Except.error (Error.NotFound d.message)
      | none => Except.error Error.JSONDecodeError
    | _ =>
      match decode r.body with
      | some d => Except.error (Error.Server d.message)
      | none => Except.error Error.JSONDecodeError

/-- `v1::Client::send_request` (src/v1/mod.rs lines 43-113): transport
phase (with its unbounded retry) followed by status classification. -/
def Client.send_request
    (transport : Nat → Except TransportErr HttpResponse)
    (decode : String → Option ResponseDTO) (fuel : Nat) :
    Option (Except Error HttpResponse × Nat) :=
  match Client.transportPhase transport fuel with
  | none => none
  | some (r, n) => some (Client.classify decode r, n)

/-- The rejection message of the friend-request operations
(src/v1/friends.rs lines 115-117). -/
def forbiddenTokenMsg : String :=
  "the token must be an unexpired user or admin token, and in the case of an user token, the ID in the token must be the same as the given ID"

/-- The element-by-element `.map(|t| from_dto(t).unwrap())` pattern
(src/v1/friends.rs lines 111-113): a failing conversion is a panic,
modelled as `none`. -/
def mapUnwrap {α β : Type} (f : α → Except FromDTOErrorV1 β) :
    List α → Option (List β)
  | [] => some []
  | x :: xs =>
    match f x with
    | Except.ok y => (mapUnwrap f xs).map (fun rest => y :: rest)
    | Except.error _ => none

/-- `v1::Client::get_friend_requests` (src/v1/friends.rs lines 96-119).
The v1 `types` module is not among the sources, so the pending-request
DTO and domain types are parameters, with their fallible `from_dto`
conversion `conv`. -/
def Client.get_friend_requests {PFRD PFR : Type}
    (tok : AccessTokenV1) (user_id : Nat) (now : Int)
    (transport : Nat → Except TransportErr HttpResponse)
    (decodeResp : String → Option ResponseDTO)
    (decodeList : String → Option (List PFRD))
    (conv : PFRD → Except FromDTOErrorV1 PFR) (fuel : Nat) :
    Option (Except Error (List PFR) × Nat) :=
  if (tok.is_admin || tok.is_user user_id) && !(tok.has_expired now) then
    match Client.send_request transport decodeResp fuel with
    | none => none
    | some (Except.error e, n) => some (Except.error e, n)
    | some (Except.ok r, n) =>
      match decodeList r.body with
      | some connections =>
        match mapUnwrap conv connections with
        | some l => some (Except.ok l, n)
        | none => none
      | none => some (Except.error Error.JSONDecodeError, n)
  else some (Except.error (Error.Forbidden forbiddenTokenMsg), 0)

/-- `v1::Client::get_all_users` (src/v1/user.rs lines 102-136).  The v1
`types` module is not among the sources, so the user DTO and domain
types are parameters, with their fallible `from_dto` conversion `conv`;
the source converts the decoded elements with `filter_map`, dropping any
element whose conversion fails. -/
def Client.get_all_users {UD UV : Type}
    (tok : AccessTokenV1) (now : Int)
    (transport : Nat → Except TransportErr HttpResponse)
    (decodeResp : String → Option ResponseDTO)
    (decodeUsers : String → Option (List UD))
    (conv : UD → Except FromDTOErrorV1 UV) (fuel : Nat) :
    Option (Except Error (List UV) × Nat) :=
  if (tok.scopes.any (fun s => decide (s = Scope.Admin)))
      && !(tok.has_expired now) then
    match Client.send_request transport decodeResp fuel with
    | none => none
    | some (Except.error e, n) => some (Except.error e, n)
    | some (Except.ok r, n) =>
      match r.status with
      | 200 =>
        match decodeUsers r.body with
        | some dtos =>
          some (Except.ok (dtos.filterMap (fun u =>
            match conv u with
            | Except.ok v => some v
            | Except.error _ => none)), n)
        | none => some (Except.error Error.JSONDecodeError, n)
      | 401 => some (Except.error Error.Unauthorized, n)
      | 202 =>
        match decodeResp r.body with
        | some rd => some (Except.error (Error.ClientError rd), n)
        | none => some (Except.error Error.JSONDecodeError, n)
      | _ => some (Except.error Error.ServerError, n)
  else some (Except.error Error.Unauthorized, 0)

/-! ## Specification-side functions, for comparison -/

/-- Spec section 6 status table, as the spec's words put it after the
correction for 403: the error kind selected by a non-200 status, carrying
the decoded message. -/
def statusErrorKind (status : Nat) (msg : String) : Error :=
  if status = 403 then Error.Forbidden msg
  else if status = 202 then Error.Client msg
  else if status = 400 then Error.BadRequest msg
  else if status = 404 then Error.NotFound msg
  else Error.Server msg

/-- Spec section 4.1 wording: the id carried by the first `User` scope
of a scope list, if any. -/
def firstUserId : List Scope → Option Nat
  | [] => none
  | Scope.User id :: _ => some id
  | _ :: rest => firstUserId rest

/-- The id carried by the last `User` scope of a scope list, if any. -/
def lastUserId (l : List Scope) : Option Nat :=
  firstUserId l.reverse

/-! ## Helper lemmas -/

lemma retryLoop_allFail (fuel i : Nat) :
    Client.retryLoop (fun _ => Except.error TransportErr.connection) fuel i
      = none := by
  induction fuel generalizing i with
  | zero => rfl
  | succ n ih => simp [Client.retryLoop, ih]

lemma firstUserId_append (u v : List Scope) :
    firstUserId (u ++ v) =
      match firstUserId u with
      | some i => some i
      | none => firstUserId v := by
  induction u with
  | nil => simp [firstUserId]
  | cons s t ih => cases s <;> simp [firstUserId, ih]

lemma foldl_origin_eq_last (l : List Scope) (a : Nat) :
    l.foldl (fun acc s =>
      match s with
      | Scope.User id => id
      | _ => acc) a = (firstUserId l.reverse).getD a := by
  induction l generalizing a with
  | nil => simp [firstUserId]
  | cons s t ih =>
    rw [List.foldl_cons, ih, List.reverse_cons, firstUserId_append]
    cases h : firstUserId t.reverse with
    | some i => simp
    | none => cases s <;> simp [firstUserId]

lemma findSomeUser_eq_first (l : List Scope) :
    (l.findSome? (fun s =>
      match s with
      | Scope.User id => some id
      | _ => none)) = firstUserId l := by
  induction l with
  | nil => simp [firstUserId]
  | cons s t ih => cases s <;> simp [List.findSome?_cons, firstUserId, ih]

lemma parseScopes_of_err {p : String} {l : List String} (hp : p ∈ l)
    (he : ∀ sc, Scope.fromStr p ≠ Except.ok sc) : parseScopes l = none := by
  induction l with
  | nil => cases hp
  | cons x xs ih =>
    rcases List.mem_cons.mp hp with h | h
    · subst h
      cases hfs : Scope.fromStr p with
      | ok sc => exact absurd hfs (he sc)
      | error e => simp [parseScopes, hfs]
    · cases hfs : Scope.fromStr x with
      | ok sc => simp [parseScopes, hfs, ih h]
      | error e => simp [parseScopes, hfs]

lemma parseDigits_upper_none (t : List Char) : parseDigits ('U' :: t) = none := by
  unfold parseDigits
  rw [if_neg (by simp)]
  rw [if_neg]
  intro h
  rw [List.all_cons] at h
  have := (Bool.and_eq_true _ _).mp h
  exact absurd this.1 (by decide)

lemma rustParse_user_none (t : List Char) : rustParseU64 ('U' :: t) = none := by
  unfold rustParseU64
  rw [if_neg, parseDigits_upper_none]
  intro h
  rw [List.head?_cons] at h
  injection h with h2
  exact absurd h2 (by decide)

lemma rfindUser_drop {cs : List Char} {i : Nat} (h : rfindUser cs = some i) :
    ∃ t, cs.drop i = 'U' :: t := by
  have hfind := List.find?_some h
  have hc : (cs.drop i).take 5 = ['U', 's', 'e', 'r', ':'] :=
    of_decide_eq_true hfind
  cases hd : cs.drop i with
  | nil => rw [hd] at hc; simp at hc
  | cons c t =>
    rw [hd] at hc
    rw [show (5 : Nat) = 4 + 1 from rfl, List.take_succ_cons] at hc
    rw [List.cons.injEq] at hc
    exact ⟨t, by rw [hc.1]⟩

lemma fromStr_catchall (s : String) (h1 : ¬s = "Admin") (h2 : ¬s = "Public")
    (h3 : ¬s = "Developer") : Scope.fromStr s = Except.error Error.InvalidScope := by
  unfold Scope.fromStr
  rw [if_neg h1, if_neg h2, if_neg h3]
  cases hf : rfindUser s.data with
  | none => rfl
  | some i =>
    obtain ⟨t, ht⟩ := rfindUser_drop hf
    show (match rustParseU64 (s.data.drop i) with
      | some id => Except.ok (Scope.User id)
      | none => Except.error Error.InvalidScope) = Except.error Error.InvalidScope
    rw [ht, rustParse_user_none]

/-! ## Claim theorems -/

/-- Claim C2, counterexample evaluation: the v1 request envelope does
not retry exactly once.  With a transport that fails on the first two
attempts and succeeds on the third, the transport phase of
`v1::Client::send_request` invokes the transport three times and
succeeds, instead of propagating the second failure after two
invocations; and with a transport that always fails it never returns,
whatever the fuel. -/
theorem c2_unbounded_retry :
    Client.transportPhase (fun i =>
      if i < 2 then Except.error TransportErr.connection
      else Except.ok ⟨200, "ok"⟩) 5 = some (⟨200, "ok"⟩, 3)
    ∧ ∀ fuel, Client.transportPhase
        (fun _ => Except.error TransportErr.connection) fuel = none := by
  constructor
  · rfl
  · intro fuel
    simp [Client.transportPhase, retryLoop_allFail]

/-- Claim C6, failing-input evaluation: `v1::AccessToken::from_dto`
calls `.unwrap()` on the JSON decode of the scope string, so a DTO whose
scope string does not decode makes the conversion panic (`none`) instead
of returning a recoverable decode error. -/
theorem c6_from_dto_decode_panic :
    AccessTokenV1.from_dto 0 (fun _ => none)
      ⟨"app", "not json", "tok", TokenType.Bearer, 60⟩ = none := by
  rfl

/-- Claim C8 (amended): `has_expired` is true iff the current instant is
strictly later than the stored expiration; in particular a token whose
expiration lies one second in the past reports expired immediately.  (At
`now = expiration` it reports not expired, refuting the `≥` form.) -/
theorem c8_has_expired_strict (e now : Int) (aid tkn : String)
    (tt : TokenType) (sc : List Scope) :
    ((AccessToken.from_data aid sc tkn tt e).has_expired now = true ↔ e < now)
    ∧ (AccessToken.from_data aid sc tkn tt (now - 1)).has_expired now = true := by
  constructor
  · simp [AccessToken.from_data, AccessToken.has_expired]
  · simp [AccessToken.from_data, AccessToken.has_expired]

/-- Claim C8, counterexample: a token whose expiration equals the
current instant reports NOT expired, though `now ≥ expiration` holds, so
`has_expired` is not `now ≥ expiration`. -/
theorem c8_counterexample :
    ((0 : Int) ≥ 0)
    ∧ (AccessToken.from_data "app" [Scope.Admin] "tok" TokenType.Bearer 0).has_expired 0
        = false := by
  decide

/-- Claim C8, witness: a token expiring one second before `now = 5`
reports expired. -/
theorem c8_witness :
    (AccessToken.from_data "app" [Scope.Admin] "tok" TokenType.Bearer (5 - 1)).has_expired 5
      = true :=
  (c8_has_expired_strict 4 5 "app" "tok" TokenType.Bearer [Scope.Admin]).2

/-- Claim C9 (amended): the spec-modelled `get_user_id` returns the id
of the first `User` scope, but the origin-id fold of the top-level
revision (`generate_transaction`, `invite_user_to_connect`,
`set_password`, and the loop of `get_me`) keeps the id of the LAST
`User` scope (0 when none), not the first. -/
theorem c9_origin_id_last_user (tok : AccessToken) (vtok : AccessTokenV1) :
    ClientV1.origin_id tok = (lastUserId tok.scopes).getD 0
    ∧ AccessTokenV1.get_user_id vtok = firstUserId vtok.scopes := by
  constructor
  · exact foldl_origin_eq_last tok.scopes 0
  · exact findSomeUser_eq_first vtok.scopes

/-- Claim C9, counterexample: on a token carrying `[User 1, User 2]` the
origin id used by the operations is 2 (the last `User` scope), while the
first `User` scope carries 1. -/
theorem c9_counterexample :
    ClientV1.origin_id
      (AccessToken.from_data "app" [Scope.User 1, Scope.User 2] "tok"
        TokenType.Bearer 10) = 2
    ∧ AccessTokenV1.get_user_id
        (AccessTokenV1.from_data "app" [Scope.User 1, Scope.User 2] "tok" 10)
        = some 1
    ∧ (2 : Nat) ≠ 1 := by
  refine ⟨rfl, rfl, by decide⟩

/-- Claim C10: `Scope::from_str` succeeds exactly on the three literal
strings `Admin`, `Public` and `Developer`; every successful parse yields
one of those three scopes, so no input ever parses to a `User` scope
(the slice handed to the integer parser still starts with the `User:`
prefix and cannot be a number). -/
theorem c10_from_str_never_user (s : String) :
    ((∃ sc, Scope.fromStr s = Except.ok sc) ↔
      (s = "Admin" ∨ s = "Public" ∨ s = "Developer"))
    ∧ ∀ sc, Scope.fromStr s = Except.ok sc →
        sc = Scope.Admin ∨ sc = Scope.Public ∨ sc = Scope.Developer := by
  by_cases h1 : s = "Admin"
  · subst h1
    refine ⟨⟨fun _ => Or.inl rfl, fun _ => ⟨Scope.Admin, rfl⟩⟩, ?_⟩
    intro sc hsc
    rw [show Scope.fromStr "Admin" = Except.ok Scope.Admin from rfl] at hsc
    injection hsc with h
    exact Or.inl h.symm
  · by_cases h2 : s = "Public"
    · subst h2
      refine ⟨⟨fun _ => Or.inr (Or.inl rfl), fun _ => ⟨Scope.Public, rfl⟩⟩, ?_⟩
      intro sc hsc
      rw [show Scope.fromStr "Public" = Except.ok Scope.Public from rfl] at hsc
      injection hsc with h
      exact Or.inr (Or.inl h.symm)
    · by_cases h3 : s = "Developer"
      · subst h3
        refine ⟨⟨fun _ => Or.inr (Or.inr rfl), fun _ => ⟨Scope.Developer, rfl⟩⟩, ?_⟩
        intro sc hsc
        rw [show Scope.fromStr "Developer" = Except.ok Scope.Developer from rfl] at hsc
        injection hsc with h
        exact Or.inr (Or.inr h.symm)
      · have he := fromStr_catchall s h1 h2 h3
        refine ⟨⟨?_, ?_⟩, ?_⟩
        · rintro ⟨sc, hsc⟩
          rw [he] at hsc
          exact Except.noConfusion hsc
        · rintro (h | h | h) <;> contradiction
        · intro sc hsc
          rw [he] at hsc
          exact Except.noConfusion hsc

/-- Claim C10, witness: `Admin` parses to the `Admin` scope, which is
one of the three parseable scopes. -/
theorem c10_witness :
    Scope.fromStr "Admin" = Except.ok Scope.Admin
    ∧ (Scope.Admin = Scope.Admin ∨ Scope.Admin = Scope.Public
        ∨ Scope.Admin = Scope.Developer) :=
  ⟨rfl, (c10_from_str_never_user "Admin").2 Scope.Admin rfl⟩

/-- Claim C5: decoding an access token never yields an empty scope list.
An empty scope string (and any scope string with an unparseable piece)
makes the old `from_dto` fail, any successful conversion carries a
non-empty scope list, and the v1 `from_dto` rejects an empty decoded
scope collection. -/
theorem c5_no_empty_scopes (now : Int) (dto : AccessTokenDTO) :
    (∀ tok, AccessToken.from_dto now dto = Except.ok tok → tok.scopes ≠ [])
    ∧ (dto.scopes = "" → AccessToken.from_dto now dto = Except.error ⟨⟩)
    ∧ (∀ p, p ∈ splitComma dto.scopes →
        (∀ sc, Scope.fromStr p ≠ Except.ok sc) →
        AccessToken.from_dto now dto = Except.error ⟨⟩)
    ∧ (∀ decodeScopes : String → Option (List Scope),
        decodeScopes dto.scopes = some [] →
        AccessTokenV1.from_dto now decodeScopes dto
          = some (Except.error ⟨"there were no scopes in the access token"⟩)) := by
  refine ⟨?_, ?_, ?_, ?_⟩
  · intro tok h
    cases hp : parseScopes (splitComma dto.scopes) with
    | none => simp [AccessToken.from_dto, hp] at h
    | some scopes =>
      by_cases hl : scopes.length = 0
      · simp [AccessToken.from_dto, hp, hl] at h
      · simp [AccessToken.from_dto, hp, hl] at h
        intro hnil
        rw [← h] at hnil
        simp at hnil
        exact hl (by rw [hnil]; rfl)
  · intro h
    unfold AccessToken.from_dto
    rw [h]
    rfl
  · intro p hp he
    have hn := parseScopes_of_err hp he
    simp [AccessToken.from_dto, hn]
  · intro decodeScopes h
    have htt : dto.token_type = TokenType.Bearer := by
      cases htt : dto.token_type
      rfl
    simp [AccessTokenV1.from_dto, h, htt]

/-- Claim C5, witness: a DTO with an empty scope string fails to
convert. -/
theorem c5_witness :
    ("" : String) = ""
    ∧ AccessToken.from_dto 0 ⟨"app", "", "tok", TokenType.Bearer, 10⟩
        = Except.error ⟨⟩ :=
  ⟨rfl, (c5_no_empty_scopes 0 ⟨"app", "", "tok", TokenType.Bearer, 10⟩).2.1 rfl⟩

/-- Claim C4: if the secret does not base64-decode to exactly
`SECRET_LEN` (20) bytes — including when it is not valid base64 at all —
`token()` returns `InvalidSecret` with zero transport invocations; and
whenever the transport was invoked at all, the secret did decode to
exactly 20 bytes. -/
theorem c4_invalid_secret (b64 : String → Option (List Nat))
    (transport : Nat → Except TransportErr HttpResponse)
    (decodeToken : String → Option AccessTokenDTO)
    (now : Int) (app_id secret : String) :
    ((∀ b, b64 secret = some b → b.length ≠ SECRET_LEN) →
      ClientV1.token b64 transport decodeToken now app_id secret
        = (Except.error Error.InvalidSecret, 0))
    ∧ ((ClientV1.token b64 transport decodeToken now app_id secret).2 ≠ 0 →
      ∃ b, b64 secret = some b ∧ b.length = SECRET_LEN) := by
  constructor
  · intro h
    cases hb : b64 secret with
    | none => simp [ClientV1.token, hb]
    | some b =>
      have hne := h b hb
      simp [ClientV1.token, hb, hne]
  · intro h
    cases hb : b64 secret with
    | none => simp [ClientV1.token, hb] at h
    | some b =>
      by_cases hl : b.length = SECRET_LEN
      · exact ⟨b, rfl, hl⟩
      · simp [ClientV1.token, hb, hl] at h

/-- Claim C4, witness: a secret decoding to 19 bytes is rejected locally
with `InvalidSecret` and zero transport invocations. -/
theorem c4_witness :
    (List.replicate 19 (0 : Nat)).length ≠ SECRET_LEN
    ∧ ClientV1.token (fun _ => some (List.replicate 19 0))
        (fun _ => Except.ok ⟨200, ""⟩) (fun _ => none) 0 "app" "sec"
        = (Except.error Error.InvalidSecret, 0) :=
  ⟨by decide,
    (c4_invalid_secret (fun _ => some (List.replicate 19 0))
      (fun _ => Except.ok ⟨200, ""⟩) (fun _ => none) 0 "app" "sec").1
      (fun b hb => by cases hb; decide)⟩

/-- Claim C3: when the operation's local scope predicate fails or the
token has expired, the operation returns its authorization error and
performs zero transport invocations — shown for `ClientV1::get_user`
(top-level revision) and `v1::Client::get_friend_requests` (v1
revision). -/
theorem c3_no_request_on_local_failure :
    (∀ (tok : AccessToken) (user_id : Nat) (now : Int)
        (transport : Nat → Except TransportErr HttpResponse)
        (decodeUser : String → Option UserDTO)
        (decodeResp : String → Option ResponseDTO),
      ((tok.scopes.any (fun s =>
          match s with
          | Scope.User u_id => decide (u_id = user_id)
          | Scope.Admin => true
          | _ => false)) = false ∨ tok.has_expired now = true) →
      ClientV1.get_user tok user_id now transport decodeUser decodeResp
        = (Except.error Error.Unauthorized, 0))
    ∧ (∀ (PFRD PFR : Type) (tok : AccessTokenV1) (user_id : Nat) (now : Int)
        (transport : Nat → Except TransportErr HttpResponse)
        (decodeResp : String → Option ResponseDTO)
        (decodeList : String → Option (List PFRD))
        (conv : PFRD → Except FromDTOErrorV1 PFR) (fuel : Nat),
      ((tok.is_admin || tok.is_user user_id) = false
        ∨ tok.has_expired now = true) →
      Client.get_friend_requests tok user_id now transport decodeResp
          decodeList conv fuel
        = some (Except.error (Error.Forbidden forbiddenTokenMsg), 0)) := by
  constructor
  · intro tok user_id now transport decodeUser decodeResp h
    rcases h with h | h <;> simp [ClientV1.get_user, h]
  · intro PFRD PFR tok user_id now transport decodeResp decodeList conv fuel h
    rcases h with h | h <;> simp [Client.get_friend_requests, h]

/-- Claim C3, witness: an expired admin token is rejected by `get_user`
with zero transport invocations, and a token without any scope is
rejected by `get_friend_requests` with zero transport invocations. -/
theorem c3_witness :
    ((AccessToken.from_data "app" [Scope.Admin] "tok" TokenType.Bearer 0).has_expired 5
        = true
      ∧ ClientV1.get_user
          (AccessToken.from_data "app" [Scope.Admin] "tok" TokenType.Bearer 0) 7 5
          (fun _ => Except.ok ⟨200, ""⟩) (fun _ => none) (fun _ => none)
          = (Except.error Error.Unauthorized, 0))
    ∧ (((AccessTokenV1.from_data "app" [] "tok" 9).is_admin
          || (AccessTokenV1.from_data "app" [] "tok" 9).is_user 7) = false
      ∧ Client.get_friend_requests (AccessTokenV1.from_data "app" [] "tok" 9) 7 0
          (fun _ => Except.ok ⟨200, ""⟩) (fun _ => (none : Option ResponseDTO))
          (fun _ => (none : Option (List Unit)))
          (fun (_ : Unit) => (Except.error ⟨"e"⟩ : Except FromDTOErrorV1 Unit)) 3
          = some (Except.error (Error.Forbidden forbiddenTokenMsg), 0)) :=
  ⟨⟨by decide,
    (c3_no_request_on_local_failure).1
      (AccessToken.from_data "app" [Scope.Admin] "tok" TokenType.Bearer 0) 7 5
      (fun _ => Except.ok ⟨200, ""⟩) (fun _ => none) (fun _ => none)
      (Or.inr (by decide))⟩,
   ⟨by decide,
    (c3_no_request_on_local_failure).2 Unit Unit
      (AccessTokenV1.from_data "app" [] "tok" 9) 7 0
      (fun _ => Except.ok ⟨200, ""⟩) (fun _ => none)
      (fun _ => none) (fun _ => Except.error ⟨"e"⟩) 3
      (Or.inl (by decide))⟩⟩

/-- Claim C7, counterexample: with an admin token, a 200 response whose
body decodes to one user DTO, and an element conversion that fails on
it, `v1::Client::get_all_users` returns `Ok` with the failing element
silently omitted instead of an error. -/
theorem c7_counterexample :
    Client.get_all_users (AccessTokenV1.from_data "app" [Scope.Admin] "tok" 10) 0
      (fun _ => Except.ok ⟨200, "body"⟩) (fun _ => (none : Option ResponseDTO))
      (fun _ => some [()])
      (fun (_ : Unit) => (Except.error ⟨"invalid user"⟩ : Except FromDTOErrorV1 Unit)) 3
      = some (Except.ok ([] : List Unit), 1) := by
  rfl

/-- Claim C7 (amended): in `get_all_users`, element-level conversion
failures are silently dropped: with the local check passed, a transport
phase delivering a 200 response, and a body decoding to `dtos`, the
operation returns `Ok` holding exactly the elements whose conversion
succeeded, whether or not any element failed. -/
theorem c7_filter_map_drops {UD UV : Type}
    (tok : AccessTokenV1) (now : Int)
    (transport : Nat → Except TransportErr HttpResponse)
    (decodeResp : String → Option ResponseDTO)
    (decodeUsers : String → Option (List UD))
    (conv : UD → Except FromDTOErrorV1 UV) (fuel : Nat)
    (r : HttpResponse) (n : Nat) (dtos : List UD)
    (hauth : (tok.scopes.any (fun s => decide (s = Scope.Admin))) = true)
    (hexp : tok.has_expired now = false)
    (ht : Client.transportPhase transport fuel = some (r, n))
    (hst : r.status = 200)
    (hd : decodeUsers r.body = some dtos) :
    Client.get_all_users tok now transport decodeResp decodeUsers conv fuel
      = some (Except.ok (dtos.filterMap (fun u =>
          match conv u with
          | Except.ok v => some v
          | Except.error _ => none)), n) := by
  have hok : Client.classify decodeResp r = Except.ok r := by
    unfold Client.classify
    rw [if_pos hst]
  have hsend : Client.send_request transport decodeResp fuel
      = some (Except.ok r, n) := by
    unfold Client.send_request
    rw [ht]
    show some (Client.classify decodeResp r, n) = some (Except.ok r, n)
    rw [hok]
  unfold Client.get_all_users
  rw [hauth, hexp]
  simp only [Bool.not_false, Bool.and_self, if_true, hsend, hst, hd]

/-- Claim C7, witness: with two decoded elements of which exactly one
converts, `get_all_users` returns `Ok` holding only the converting
one. -/
theorem c7_witness :
    ((AccessTokenV1.from_data "app" [Scope.Admin] "tok" 10).scopes.any
        (fun s => decide (s = Scope.Admin))) = true
    ∧ (AccessTokenV1.from_data "app" [Scope.Admin] "tok" 10).has_expired 0 = false
    ∧ Client.get_all_users (AccessTokenV1.from_data "app" [Scope.Admin] "tok" 10) 0
        (fun _ => Except.ok ⟨200, "body"⟩) (fun _ => (none : Option ResponseDTO))
        (fun _ => some [true, false])
        (fun b => if b then (Except.ok b : Except FromDTOErrorV1 Bool)
          else Except.error ⟨"bad"⟩) 3
        = some (Except.ok [true], 1) :=
  ⟨by decide, by decide,
    (c7_filter_map_drops (AccessTokenV1.from_data "app" [Scope.Admin] "tok" 10) 0
      (fun _ => Except.ok ⟨200, "body"⟩) (fun _ => (none : Option ResponseDTO))
      (fun _ => some [true, false])
      (fun b => if b then (Except.ok b : Except FromDTOErrorV1 Bool)
        else Except.error ⟨"bad"⟩) 3
      ⟨200, "body"⟩ 1 [true, false]
      (by decide) (by decide) rfl rfl rfl).trans rfl⟩

/-- Claim C1, counterexample: a 401 response with body message `X` is
classified by `v1::Client::send_request` as a generic `Server` error,
not as an Unauthorized/Forbidden error. -/
theorem c1_counterexample :
    Client.send_request (fun _ => Except.ok ⟨401, "body"⟩)
        (fun _ => some ⟨"X"⟩) 1
      = some (Except.error (Error.Server "X"), 1)
    ∧ Error.Server "X" ≠ Error.Forbidden "X"
    ∧ Error.Server "X" ≠ Error.Unauthorized := by
  refine ⟨rfl, by decide, by decide⟩

/-- Claim C1 (amended): for every non-200 response whose body decodes to
a `ResponseDTO`, the classification reads the full body and maps the
status by the table 403 to Forbidden, 202 to Client, 400 to BadRequest,
404 to NotFound, and anything else — including 401 — to Server, always
carrying exactly the decoded `message` field. -/
theorem c1_status_table (decode : String → Option ResponseDTO)
    (r : HttpResponse) (dto : ResponseDTO)
    (hs : ¬r.status = 200) (hd : decode r.body = some dto) :
    Client.classify decode r
      = Except.error (statusErrorKind r.status dto.message) := by
  unfold Client.classify
  rw [if_neg hs]
  unfold statusErrorKind
  split <;> simp_all

/-- Claim C1, witness: a 404 response with body message `X` classifies
to the table's kind for 404 carrying exactly `X`. -/
theorem c1_witness :
    ¬(404 : Nat) = 200
    ∧ Client.classify (fun _ => some ⟨"X"⟩) ⟨404, "body"⟩
        = Except.error (statusErrorKind 404 "X") :=
  ⟨by decide,
    c1_status_table (fun _ => some ⟨"X"⟩) ⟨404, "body"⟩ ⟨"X"⟩ (by decide) rfl⟩
